import Mathlib

/-!
Verification of the Gradio front-end client in `app.py` (RAG financial Q&A chatbot).

The source file is UI glue over four remote HTTP operations.  We embed each
relevant function shallowly: the outcome of every HTTP round trip (and the
local file read during upload) is an explicit `Except` parameter, and the
network requests a function issues are returned as an explicit trace, so that
"performs no network call" claims are statable.  Python truthiness of the
values involved (`None`, empty string, empty list) is translated at each use
site: `if not filenames` becomes `filenames = []`, `if file_id:` becomes
"`file_id` is a present, non-empty string", `if sources:` becomes
`sources ≠ []`, and `return msg or "No files deleted."` tests `msg = ""`.
-/

namespace RAGApp

/-- A document record from the backend index: `{file_id, filename}`. -/
structure DocRecord where
  filename : String
  file_id : String
deriving DecidableEq, Repr

/-- The index-info JSON: `{status, files: [...]}` (other backend fields are
not read by the client and are omitted). -/
structure IndexInfo where
  status : String
  files : List DocRecord
deriving DecidableEq, Repr

/-- One wire-format chat history entry `{role, content}`. -/
structure ApiMessage where
  role : String
  content : String
deriving DecidableEq, Repr

/-- One entry of the chat response's `sources` list (only `filename` is read). -/
structure SourceRef where
  filename : String
deriving DecidableEq, Repr

/-- The `/chat` response body `{answer, sources}`. -/
structure ChatResponse where
  answer : String
  sources : List SourceRef
deriving DecidableEq, Repr

/-- The `{status: "error", message}` dictionary the client builds on failure. -/
structure ErrorDict where
  status : String
  message : String
deriving DecidableEq, Repr

/-- A network request issued by the file-management functions. -/
inductive NetCall where
  | getInfo
  | deleteDoc (file_id : String)
deriving DecidableEq, Repr

/-- Result of `get_vector_db_info`: either the parsed info JSON or the
error dictionary built in the `except` clause. -/
inductive InfoResult where
  | ok (info : IndexInfo)
  | err (e : ErrorDict)
deriving DecidableEq, Repr

/-- Environment for the delete path: the outcome of the `/vector-db/info`
fetch and, per file id, the outcome of the DELETE request. -/
structure Env where
  infoResult : Except String IndexInfo
  deleteResult : String → Except String Unit

/-- `get_vector_db_info` (app.py lines 11-18): returns `response.json()` on
success, `{"status": "error", "message": str(e)}` on any exception. -/
def get_vector_db_info (fetch : Except String IndexInfo) : InfoResult :=
  match fetch with
  | .ok info => .ok info
  | .error e => .err ⟨"error", e⟩

/-- `get_uploaded_files_info` (app.py lines 87-97): returns
`info.get("files", [])` on success and `[]` on any exception; in both cases
one GET request was issued.  The second component is the request trace. -/
def get_uploaded_files_info (fetch : Except String IndexInfo) :
    List DocRecord × List NetCall :=
  match fetch with
  | .ok info => (info.files, [NetCall.getInfo])
  | .error _ => ([], [NetCall.getInfo])

/-- `get_filenames_list` (app.py lines 128-130). -/
def get_filenames_list (fetch : Except String IndexInfo) : List String :=
  (get_uploaded_files_info fetch).1.map (fun f => f.filename)

/-- The filename-to-id lookup loop in `delete_files_from_db`
(app.py lines 107-111): first record whose `filename` equals `fname` wins
(`break`), `None` if no record matches. -/
def resolveFileId : List DocRecord → String → Option String
  | [], _ => none
  | f :: rest, fname =>
      if f.filename = fname then some f.file_id else resolveFileId rest fname

/-- One iteration of the `for fname in filenames` loop in
`delete_files_from_db` (app.py lines 106-120): resolve the filename, and if
the resolved id is truthy (present and non-empty) issue the DELETE request,
recording `fname` in `deleted` on success or `fname ++ ": " ++ e` in
`errors` on failure; otherwise record `fname ++ ": Not found"` with no
request.  Components: entry for `deleted`, entry for `errors`, request
trace. -/
def processOne (env : Env) (files_info : List DocRecord) (fname : String) :
    Option String × Option String × List NetCall :=
  match resolveFileId files_info fname with
  | some fid =>
      if fid = "" then (none, some (fname ++ ": Not found"), [])
      else
        match env.deleteResult fid with
        | .ok _ => (some fname, none, [NetCall.deleteDoc fid])
        | .error ex => (none, some (fname ++ ": " ++ ex), [NetCall.deleteDoc fid])
  | none => (none, some (fname ++ ": Not found"), [])

/-- The whole loop of `delete_files_from_db`, accumulating the `deleted`
list, the `errors` list and the request trace in iteration order. -/
def runDeletes (env : Env) (files_info : List DocRecord) :
    List String → List String × List String × List NetCall
  | [] => ([], [], [])
  | fname :: rest =>
      (((processOne env files_info fname).1.toList
          ++ (runDeletes env files_info rest).1),
       ((processOne env files_info fname).2.1.toList
          ++ (runDeletes env files_info rest).2.1),
       ((processOne env files_info fname).2.2
          ++ (runDeletes env files_info rest).2.2))

/-- The summary-message construction of `delete_files_from_db`
(app.py lines 121-126): `msg` concatenates an optional
`"Deleted: <comma-joined>. "` clause and an optional
`"Errors: <semicolon-joined>"` clause, and `return msg or "No files
deleted."` falls back exactly when `msg` is the empty string. -/
def summaryMsg (deleted errors : List String) : String :=
  if ((if deleted = [] then "" else "Deleted: " ++ String.intercalate ", " deleted ++ ". ")
      ++ (if errors = [] then "" else "Errors: " ++ String.intercalate "; " errors)) = ""
  then "No files deleted."
  else
    (if deleted = [] then "" else "Deleted: " ++ String.intercalate ", " deleted ++ ". ")
      ++ (if errors = [] then "" else "Errors: " ++ String.intercalate "; " errors)

/-- `delete_files_from_db` (app.py lines 99-126): empty selection
short-circuits before any request; otherwise one info fetch, then the
per-filename loop.  Returns the summary string and the request trace. -/
def delete_files_from_db (env : Env) (filenames : List String) :
    String × List NetCall :=
  if filenames = [] then ("No files selected.", [])
  else
    (summaryMsg
        (runDeletes env (get_uploaded_files_info env.infoResult).1 filenames).1
        (runDeletes env (get_uploaded_files_info env.infoResult).1 filenames).2.1,
     (get_uploaded_files_info env.infoResult).2
        ++ (runDeletes env (get_uploaded_files_info env.infoResult).1 filenames).2.2)

/-- The history-conversion loop of `chat_with_documents`
(app.py lines 58-62): each `(human, ai)` transcript pair becomes a
`{"role": "user", ...}` entry followed by a `{"role": "assistant", ...}`
entry. -/
def apiHistory : List (String × String) → List ApiMessage
  | [] => []
  | (human, ai) :: rest =>
      ⟨"user", human⟩ :: ⟨"assistant", ai⟩ :: apiHistory rest

/-- The answer formatting of `chat_with_documents` (app.py lines 72-76):
when `sources` is non-empty, append a `Sources:` block with one `- `
line per source entry (no deduplication in the code). -/
def formatAnswer (result : ChatResponse) : String :=
  if result.sources = [] then result.answer
  else
    result.answer ++ "\n\nSources:\n"
      ++ String.intercalate "\n" (result.sources.map (fun s => "- " ++ s.filename))

/-- `chat_with_documents` (app.py lines 55-85): `chatCall` is the combined
outcome of the POST, `raise_for_status`, JSON parsing and field access; on
success the formatted answer is appended, on any exception the pair
`(message, "Error: " ++ e)` is appended instead. -/
def chat_with_documents (message : String) (history : List (String × String))
    (chatCall : Except String ChatResponse) : List (String × String) :=
  match chatCall with
  | .ok result => history ++ [(message, formatAnswer result)]
  | .error e => history ++ [(message, "Error: " ++ e)]

/-- Helper for the spec-side formatter: keep the first occurrence of each
filename, drop later duplicates. -/
def distinctAux : List String → List String → List String
  | [], _ => []
  | x :: xs, seen =>
      if x ∈ seen then distinctAux xs seen else x :: distinctAux xs (x :: seen)

/-- The distinct filenames of a list, first occurrences kept, in order. -/
def distinctFilenames (l : List String) : List String := distinctAux l []

/-- Modelled from the spec words (not from the code), for comparison with
`formatAnswer`: the `Sources:` block "lists every distinct source filename,
one per line, each line prefixed by `- `". -/
def specFormatAnswer (result : ChatResponse) : String :=
  if result.sources = [] then result.answer
  else
    result.answer ++ "\n\nSources:\n"
      ++ String.intercalate "\n"
          ((distinctFilenames (result.sources.map (fun s => s.filename))).map
            (fun f => "- " ++ f))

/-- The Gradio file object: only its `name` (a path) is read. -/
structure GradioFile where
  name : String
deriving DecidableEq, Repr

/-- Environment for `upload_file`: outcome of the local file read and of the
POST round trip (body parsing included). -/
structure UploadEnv where
  readResult : Except String Unit
  postResult : Except String String

/-- A side effect of `upload_file`: the local file read or the POST request. -/
inductive FileEffect where
  | readLocalFile
  | postUpload
deriving DecidableEq, Repr

/-- Result of `upload_file`: the backend response JSON (opaque here) or the
error dictionary built in an `except` clause. -/
inductive UploadResult where
  | ok (response : String)
  | err (e : ErrorDict)
deriving DecidableEq, Repr

/-- `upload_file` (app.py lines 20-44): `None` short-circuits to
`{"status": "error", "message": "No file selected"}` before the file is
opened; a read failure maps to `"Upload error: ..."`, a request failure to
`"Network error: ..."`.  The second component is the effect trace. -/
def upload_file (env : UploadEnv) (file : Option GradioFile) :
    UploadResult × List FileEffect :=
  match file with
  | none => (.err ⟨"error", "No file selected"⟩, [])
  | some _ =>
      match env.readResult with
      | .error e => (.err ⟨"error", "Upload error: " ++ e⟩, [.readLocalFile])
      | .ok _ =>
          match env.postResult with
          | .error e =>
              (.err ⟨"error", "Network error: " ++ e⟩,
               [.readLocalFile, .postUpload])
          | .ok r => (.ok r, [.readLocalFile, .postUpload])

/-- A non-empty string stays non-empty when something is appended on the
right. -/
lemma append_ne_empty_left (s t : String) (h : s ≠ "") : s ++ t ≠ "" := by
  intro he
  apply h
  have hl := congrArg String.length he
  rw [String.length_append] at hl
  have hs : s.length = 0 := Nat.eq_zero_of_add_eq_zero_right hl
  cases s with
  | mk data =>
    cases data with
    | nil => rfl
    | cons c cs => simp [String.length] at hs

/-- A non-empty string stays non-empty when something is prepended on the
left. -/
lemma append_ne_empty_right (s t : String) (h : t ≠ "") : s ++ t ≠ "" := by
  intro he
  apply h
  have hl := congrArg String.length he
  rw [String.length_append] at hl
  have ht : t.length = 0 := Nat.eq_zero_of_add_eq_zero_left hl
  cases t with
  | mk data =>
    cases data with
    | nil => rfl
    | cons c cs => simp [String.length] at ht

/-- Prepending the empty string is the identity. -/
lemma empty_append_str (s : String) : "" ++ s = s := by
  cases s with
  | mk data => rfl

/-- C1 counterexample: with two sources citing the same filename the code
repeats the line, so the block does not list each distinct filename once
per line as the claim states. -/
theorem C1_distinct_sources_counterexample :
    formatAnswer ⟨"A", [⟨"a.pdf"⟩, ⟨"a.pdf"⟩]⟩ = "A\n\nSources:\n- a.pdf\n- a.pdf" ∧
    specFormatAnswer ⟨"A", [⟨"a.pdf"⟩, ⟨"a.pdf"⟩]⟩ = "A\n\nSources:\n- a.pdf" ∧
    formatAnswer ⟨"A", [⟨"a.pdf"⟩, ⟨"a.pdf"⟩]⟩ ≠
      specFormatAnswer ⟨"A", [⟨"a.pdf"⟩, ⟨"a.pdf"⟩]⟩ := by
  refine ⟨rfl, rfl, ?_⟩
  decide

/-- C1 (amended): on a successful chat call the formatted answer is the raw
answer when there are zero sources, and otherwise the raw answer followed by
a Sources block with one dash-prefixed line per source entry in response
order, duplicates included. -/
theorem C1_sources_block (message : String) (history : List (String × String))
    (r : ChatResponse) :
    chat_with_documents message history (Except.ok r) =
      history ++ [(message,
        if r.sources = [] then r.answer
        else r.answer ++ "\n\nSources:\n"
          ++ String.intercalate "\n" (r.sources.map (fun s => "- " ++ s.filename)))] :=
  rfl

/-- Index form of the wire history: entry `2*i` is the user message of pair
`i` and entry `2*i+1` is the assistant message of pair `i`. -/
lemma apiHistory_get? (history : List (String × String)) (i : Nat) :
    (apiHistory history).get? (2 * i)
        = (history.get? i).map (fun p => (⟨"user", p.1⟩ : ApiMessage)) ∧
    (apiHistory history).get? (2 * i + 1)
        = (history.get? i).map (fun p => (⟨"assistant", p.2⟩ : ApiMessage)) := by
  induction history generalizing i with
  | nil => simp [apiHistory]
  | cons p rest ih =>
    obtain ⟨hu, ai⟩ := p
    cases i with
    | zero => simp [apiHistory]
    | succ j =>
      have h := ih j
      have e1 : 2 * (j + 1) = 2 * j + 1 + 1 := by ring
      rw [e1]
      simpa [apiHistory] using h

/-- C2: the wire-format history of an N-pair transcript has exactly 2N
entries, alternating a user entry then an assistant entry, with the
transcript contents in their original order. -/
theorem C2_wire_history_round_trip (history : List (String × String)) :
    (apiHistory history).length = 2 * history.length ∧
    ∀ i : Nat,
      (apiHistory history).get? (2 * i)
          = (history.get? i).map (fun p => (⟨"user", p.1⟩ : ApiMessage)) ∧
      (apiHistory history).get? (2 * i + 1)
          = (history.get? i).map (fun p => (⟨"assistant", p.2⟩ : ApiMessage)) := by
  refine ⟨?_, fun i => apiHistory_get? history i⟩
  induction history with
  | nil => rfl
  | cons p rest ih =>
    obtain ⟨hu, ai⟩ := p
    simp only [apiHistory, List.length_cons, ih, Nat.mul_succ]

/-- C3: a chat call that raises appends exactly the pair
`(message, "Error: " ++ e)` to the transcript, so the result is one pair
longer than the input. -/
theorem C3_error_appends_pair (message : String) (history : List (String × String))
    (e : String) :
    chat_with_documents message history (Except.error e)
        = history ++ [(message, "Error: " ++ e)] ∧
    (chat_with_documents message history (Except.error e)).length
        = history.length + 1 := by
  refine ⟨rfl, ?_⟩
  simp [chat_with_documents]

/-- C6: an empty selection returns exactly "No files selected." with an
empty request trace. -/
theorem C6_empty_selection (env : Env) :
    delete_files_from_db env [] = ("No files selected.", []) := rfl

/-- C7: uploading with no file selected returns exactly the error
dictionary with message "No file selected", with no network request and no
local file read. -/
theorem C7_no_file_selected (env : UploadEnv) :
    upload_file env none = (UploadResult.err ⟨"error", "No file selected"⟩, []) := rfl

/-- C8: any failure of the info fetch is returned as the structured value
`{status: "error", message: <error text>}`; the function is total, so no
exception propagates. -/
theorem C8_info_fetch_error (e : String) :
    get_vector_db_info (Except.error e) = InfoResult.err ⟨"error", e⟩ := rfl

/-- C9: on a fetch error the filename list is empty; on a successful fetch
it is the snapshot's filenames in snapshot order. -/
theorem C9_filenames_projection (e : String) (info : IndexInfo) :
    get_filenames_list (Except.error e) = [] ∧
    get_filenames_list (Except.ok info) = info.files.map (fun f => f.filename) :=
  ⟨rfl, rfl⟩

/-- The summary message in terms of emptiness of the two accumulated lists:
the fallback fires exactly when both clauses are empty. -/
lemma summaryMsg_eq (deleted errors : List String) :
    summaryMsg deleted errors =
      (if deleted = [] ∧ errors = [] then "No files deleted."
       else
         (if deleted = [] then ""
          else "Deleted: " ++ String.intercalate ", " deleted ++ ". ")
           ++ (if errors = [] then ""
               else "Errors: " ++ String.intercalate "; " errors)) := by
  cases deleted with
  | nil =>
    cases errors with
    | nil => rfl
    | cons er ers =>
      have hne :
          (("" : String)
            ++ ("Errors: " ++ String.intercalate "; " (er :: ers))) ≠ "" :=
        append_ne_empty_right _ _ (append_ne_empty_left _ _ (by decide))
      show (if (("" : String)
              ++ ("Errors: " ++ String.intercalate "; " (er :: ers))) = ""
            then "No files deleted."
            else ("" : String)
              ++ ("Errors: " ++ String.intercalate "; " (er :: ers))) = _
      rw [if_neg hne]
      rfl
  | cons d ds =>
    have hdne :
        (("Deleted: " ++ String.intercalate ", " (d :: ds)) ++ ". ") ≠ "" :=
      append_ne_empty_right _ _ (by decide)
    cases errors with
    | nil =>
      have hne :
          ((("Deleted: " ++ String.intercalate ", " (d :: ds)) ++ ". ")
            ++ ("" : String)) ≠ "" :=
        append_ne_empty_left _ _ hdne
      show (if ((("Deleted: " ++ String.intercalate ", " (d :: ds)) ++ ". ")
              ++ ("" : String)) = ""
            then "No files deleted."
            else (("Deleted: " ++ String.intercalate ", " (d :: ds)) ++ ". ")
              ++ ("" : String)) = _
      rw [if_neg hne]
      rfl
    | cons er ers =>
      have hne :
          ((("Deleted: " ++ String.intercalate ", " (d :: ds)) ++ ". ")
            ++ ("Errors: " ++ String.intercalate "; " (er :: ers))) ≠ "" :=
        append_ne_empty_left _ _ hdne
      show (if ((("Deleted: " ++ String.intercalate ", " (d :: ds)) ++ ". ")
              ++ ("Errors: " ++ String.intercalate "; " (er :: ers))) = ""
            then "No files deleted."
            else (("Deleted: " ++ String.intercalate ", " (d :: ds)) ++ ". ")
              ++ ("Errors: " ++ String.intercalate "; " (er :: ers))) = _
      rw [if_neg hne]
      rfl

/-- The lookup loop returns the id of the first matching record: records
before the first match never match, so the `break` lands on it. -/
lemma resolveFileId_first (pre post : List DocRecord) (r : DocRecord)
    (fname : String)
    (hpre : ∀ f ∈ pre, f.filename ≠ fname) (hr : r.filename = fname) :
    resolveFileId (pre ++ r :: post) fname = some r.file_id := by
  induction pre with
  | nil => simp [resolveFileId, hr]
  | cons f rest ih =>
    have hf : f.filename ≠ fname := hpre f (List.mem_cons_self f rest)
    rw [List.cons_append]
    simp only [resolveFileId]
    rw [if_neg hf]
    exact ih (fun g hg => hpre g (List.mem_cons_of_mem f hg))

/-- Environment with a single indexed file `a.pdf` under id `id1`; every
DELETE request succeeds. -/
def oneFileEnv : Env :=
  ⟨Except.ok ⟨"ok", [⟨"a.pdf", "id1"⟩]⟩, fun _ => Except.ok ()⟩

/-- Environment whose snapshot has `a.pdf` with an empty (falsy) file id
behind an unrelated record; every DELETE request would succeed. -/
def falsyIdEnv : Env :=
  ⟨Except.ok ⟨"ok", [⟨"b.pdf", "id0"⟩, ⟨"a.pdf", ""⟩]⟩, fun _ => Except.ok ()⟩

/-- C4: for a non-empty selection the summary combines an optional
`Deleted:` clause and an optional `Errors:` clause, each omitted when its
accumulated list is empty, with the fallback "No files deleted." exactly
when both are empty; and on the concrete selection `["a.pdf",
"missing.pdf"]` against a snapshot holding only `a.pdf` (deletion
succeeding), the summary is "Deleted: a.pdf. Errors: missing.pdf: Not
found", containing both required fragments. -/
theorem C4_delete_summary (env : Env) (filenames : List String)
    (h : filenames ≠ []) :
    ((delete_files_from_db env filenames).1 =
      (if (runDeletes env (get_uploaded_files_info env.infoResult).1 filenames).1 = [] ∧
          (runDeletes env (get_uploaded_files_info env.infoResult).1 filenames).2.1 = []
       then "No files deleted."
       else
         (if (runDeletes env (get_uploaded_files_info env.infoResult).1 filenames).1 = []
          then ""
          else "Deleted: "
            ++ String.intercalate ", "
                (runDeletes env (get_uploaded_files_info env.infoResult).1 filenames).1
            ++ ". ")
           ++ (if (runDeletes env (get_uploaded_files_info env.infoResult).1 filenames).2.1 = []
               then ""
               else "Errors: "
                 ++ String.intercalate "; "
                     (runDeletes env (get_uploaded_files_info env.infoResult).1 filenames).2.1))) ∧
    (delete_files_from_db oneFileEnv ["a.pdf", "missing.pdf"]).1 =
      "Deleted: a.pdf" ++ ". " ++ "Errors: missing.pdf: Not found" := by
  constructor
  · unfold delete_files_from_db
    rw [if_neg h]
    exact summaryMsg_eq _ _
  · rfl

/-- Witness for C4 at the concrete environment and selection. -/
theorem C4_delete_summary_witness :
    (delete_files_from_db oneFileEnv ["a.pdf", "missing.pdf"]).1 =
      "Deleted: a.pdf" ++ ". " ++ "Errors: missing.pdf: Not found" :=
  (C4_delete_summary oneFileEnv ["a.pdf", "missing.pdf"] (by decide)).2

/-- C5: splitting the snapshot as `pre ++ r :: post` where nothing in `pre`
matches and `r` does, the filename resolves to `r`'s file id, and when that
id is non-empty exactly one DELETE request is issued, for that id only. -/
theorem C5_first_match_wins (env : Env) (pre post : List DocRecord)
    (r : DocRecord) (fname : String)
    (hpre : ∀ f ∈ pre, f.filename ≠ fname) (hr : r.filename = fname)
    (hid : r.file_id ≠ "") :
    resolveFileId (pre ++ r :: post) fname = some r.file_id ∧
    (processOne env (pre ++ r :: post) fname).2.2
        = [NetCall.deleteDoc r.file_id] := by
  have hres := resolveFileId_first pre post r fname hpre hr
  refine ⟨hres, ?_⟩
  cases hdel : env.deleteResult r.file_id with
  | ok u => simp [processOne, hres, hid, hdel]
  | error ex => simp [processOne, hres, hid, hdel]

/-- Witness for C5: a colliding snapshot where the second record (id
`id1`) is the first match, ahead of a later record with id `id2`. -/
theorem C5_first_match_wins_witness :
    resolveFileId
        ([⟨"b.pdf", "id0"⟩] ++ (⟨"a.pdf", "id1"⟩ : DocRecord) :: [⟨"a.pdf", "id2"⟩])
        "a.pdf" = some (⟨"a.pdf", "id1"⟩ : DocRecord).file_id ∧
    (processOne oneFileEnv
        ([⟨"b.pdf", "id0"⟩] ++ (⟨"a.pdf", "id1"⟩ : DocRecord) :: [⟨"a.pdf", "id2"⟩])
        "a.pdf").2.2
        = [NetCall.deleteDoc (⟨"a.pdf", "id1"⟩ : DocRecord).file_id] :=
  C5_first_match_wins oneFileEnv [⟨"b.pdf", "id0"⟩] [⟨"a.pdf", "id2"⟩]
    ⟨"a.pdf", "id1"⟩ "a.pdf" (by decide) rfl (by decide)

/-- C10: when the first matching record carries an empty (falsy) file id,
processing that filename issues no DELETE request and behaves exactly as if
no record matched; on a singleton selection the whole call returns only the
"Not found" error, with just the one info fetch in the request trace. -/
theorem C10_falsy_file_id (env : Env) (st fname : String)
    (pre post : List DocRecord) (r : DocRecord)
    (henv : env.infoResult = Except.ok ⟨st, pre ++ r :: post⟩)
    (hpre : ∀ f ∈ pre, f.filename ≠ fname) (hr : r.filename = fname)
    (hid : r.file_id = "") :
    processOne env (pre ++ r :: post) fname = processOne env [] fname ∧
    delete_files_from_db env [fname]
        = ("Errors: " ++ (fname ++ ": Not found"), [NetCall.getInfo]) := by
  have hres := resolveFileId_first pre post r fname hpre hr
  have hone : processOne env (pre ++ r :: post) fname
      = (none, some (fname ++ ": Not found"), []) := by
    simp [processOne, hres, hid]
  have hrun : runDeletes env (pre ++ r :: post) [fname]
      = ([], [fname ++ ": Not found"], []) := by
    simp [runDeletes, hone]
  have hne2 :
      (("" : String)
        ++ ("Errors: " ++ String.intercalate "; " [fname ++ ": Not found"])) ≠ "" :=
    append_ne_empty_right _ _ (append_ne_empty_left _ _ (by decide))
  have hsum : summaryMsg [] [fname ++ ": Not found"]
      = "Errors: " ++ (fname ++ ": Not found") := by
    show (if (("" : String)
            ++ ("Errors: " ++ String.intercalate "; " [fname ++ ": Not found"])) = ""
          then "No files deleted."
          else ("" : String)
            ++ ("Errors: " ++ String.intercalate "; " [fname ++ ": Not found"])) = _
    rw [if_neg hne2, empty_append_str]
    rfl
  refine ⟨by rw [hone]; rfl, ?_⟩
  have hcons : ([fname] : List String) ≠ [] := by simp
  unfold delete_files_from_db
  rw [if_neg hcons, henv]
  show (summaryMsg (runDeletes env (pre ++ r :: post) [fname]).1
          (runDeletes env (pre ++ r :: post) [fname]).2.1,
        ([NetCall.getInfo] : List NetCall)
          ++ (runDeletes env (pre ++ r :: post) [fname]).2.2)
      = ("Errors: " ++ (fname ++ ": Not found"), [NetCall.getInfo])
  rw [hrun, hsum]
  rfl

/-- Witness for C10 at a concrete snapshot with an empty file id. -/
theorem C10_falsy_file_id_witness :
    processOne falsyIdEnv
        ([⟨"b.pdf", "id0"⟩] ++ (⟨"a.pdf", ""⟩ : DocRecord) :: []) "a.pdf"
        = processOne falsyIdEnv [] "a.pdf" ∧
    delete_files_from_db falsyIdEnv ["a.pdf"]
        = ("Errors: " ++ ("a.pdf" ++ ": Not found"), [NetCall.getInfo]) :=
  C10_falsy_file_id falsyIdEnv "ok" "a.pdf" [⟨"b.pdf", "id0"⟩] []
    ⟨"a.pdf", ""⟩ rfl (by decide) rfl rfl

end RAGApp
